import Mathlib

/-!
Verification of the authentication/authorization middleware pipeline of the
sequelize_auth repository: the middleware functions (hashPassword,
comparePassword, createToken, verifyToken, stripToken) and the two route
handlers (Login, Register), shallowly embedded from the JavaScript source.

External library collaborators (bcrypt, jsonwebtoken) are not part of the
repository; where a property depends on their behaviour they are modelled
from the specification, with a doc comment saying so.  Everything else is
translated directly from the JavaScript in the source.
-/

/-- The claims payload built by the Login handler: exactly the id and email
fields of the matched user record (`let payload = \x7b id: user.id, email:
user.email \x7d`). The structure has no other field, so by construction it can
carry neither a password digest nor a plaintext password. -/
structure ClaimsPayload where
  id : Nat
  email : String
deriving DecidableEq, Repr

/-- Modelled from the spec: the symmetric signature (message authentication
code) that the jsonwebtoken library computes over the serialized claims with
the shared secret.  The repository does not contain the library; any
deterministic function of the secret and the claims serves the model. -/
def mac (secret : String) (c : ClaimsPayload) : Nat :=
  (c.email.toList.foldl (fun a ch => a * 31 + ch.toNat) (secret.length * 131 + 7)) * 2 + c.id

/-- Modelled from the spec: a signed token as produced by jsonwebtoken:
the claims payload, an optional expiration claim, and the signature. -/
structure Token where
  claims : ClaimsPayload
  exp : Option Nat
  sig : Nat
deriving DecidableEq, Repr

/-- Modelled from the spec: jwt.sign with no options object sets no
expiration claim and signs the payload with the secret. -/
def jwtSign (payload : ClaimsPayload) (secret : String) : Token :=
  { claims := payload, exp := none, sig := mac secret payload }

/-- Modelled from the spec: jwt.verify recomputes the signature and checks
integrity; a token with an expiration claim is additionally checked against
the current time, a token without one never expires.  On failure the result
is none (the library throws; the middleware embedding treats that uniformly). -/
def jwtVerify (t : Token) (secret : String) (now : Nat) : Option ClaimsPayload :=
  if t.sig = mac secret t.claims ∧ (∀ e, t.exp = some e → now < e) then
    some t.claims
  else none

/-- From the .env in the source: APP_SECRET=supersecretkey. -/
def APP_SECRET : String := "supersecretkey"

/-- From the .env in the source: SALT_ROUNDS=12. -/
def SALT_ROUNDS : Nat := 12

/-- `const createToken = (payload) => \x7b let token = jwt.sign(payload,
APP_SECRET); return token \x7d`. -/
def createToken (payload : ClaimsPayload) : Token :=
  jwtSign payload APP_SECRET

/-- Modelled from the spec: the bcrypt one-way hash core, a deterministic
function of the salt, the work factor and the plaintext.  The repository does
not contain the library. -/
def bhash (salt rounds : Nat) (p : String) : Nat :=
  p.toList.foldl (fun a ch => a * 31 + ch.toNat) (salt * 131 + rounds)

/-- Modelled from the spec: a bcrypt digest embeds the salt and the work
factor alongside the hash value, so comparison can recompute the hash. -/
structure BcryptDigest where
  salt : Nat
  rounds : Nat
  value : Nat
deriving DecidableEq, Repr

/-- Modelled from the spec: bcrypt.hash picks a salt (passed here explicitly
to expose the nondeterminism) and stores it in the digest with the hash. -/
def bcryptHash (p : String) (rounds salt : Nat) : BcryptDigest :=
  { salt := salt, rounds := rounds, value := bhash salt rounds p }

/-- Modelled from the spec: bcrypt.compare recomputes the hash of the
candidate using the salt and work factor embedded in the digest and checks
equality; it returns false on mismatch rather than throwing. -/
def bcryptCompare (p : String) (d : BcryptDigest) : Bool :=
  d.value = bhash d.salt d.rounds p

/-- `const hashPassword = async (password) => \x7b let hashedPassword = await
bcrypt.hash(password, SALT_ROUNDS); return hashedPassword \x7d`.  The salt
chosen by the library is an explicit argument of the model. -/
def hashPassword (password : String) (salt : Nat) : BcryptDigest :=
  bcryptHash password SALT_ROUNDS salt

/-- `const comparePassword = async (storedPassword, password) => \x7b let
passwordMatch = await bcrypt.compare(password, storedPassword); return
passwordMatch \x7d`: stored digest first, candidate plaintext second. -/
def comparePassword (storedPassword : BcryptDigest) (password : String) : Bool :=
  bcryptCompare password storedPassword

/-- A user record as returned by the storage collaborator (the User model):
id, email, passwordDigest and name, mirroring the fields Register creates and
Login reads. -/
structure UserRecord where
  id : Nat
  email : String
  passwordDigest : String
  name : String
deriving DecidableEq, Repr

/-- The response bodies the handlers construct: the uniform error object
`\x7b status, msg \x7d`, the Login success object `\x7b user, token \x7d`, and the
full user record sent by Register. -/
inductive Body where
  | errorMsg (status msg : String)
  | loginSuccess (user : ClaimsPayload) (token : Token)
  | userRecord (u : UserRecord)
deriving DecidableEq, Repr

/-- An HTTP response: status code and body.  `res.send` without a prior
`res.status` uses the framework default 200. -/
structure Response where
  status : Nat
  body : Body
deriving DecidableEq, Repr

/-- The uniform rejection `res.status(401).send(\x7b status: 'Error', msg:
'Unauthorized' \x7d)` shared by stripToken, verifyToken and Login. -/
def unauthorizedResponse : Response :=
  { status := 401, body := Body.errorMsg "Error" "Unauthorized" }

/-- The observable outcome of running a middleware function on a request:
it calls next (possibly after storing a token in res.locals), or it sends a
response, or it returns without doing either (the request stalls). -/
inductive MwOutcome where
  | next (storedToken : Option String)
  | respond (r : Response)
  | hang
deriving DecidableEq, Repr

/-- JavaScript String.prototype.split with a single-character separator,
accumulator form: splitting never drops empty fields, and splitting the empty
string yields a singleton list holding the empty string. -/
def jsSplitAux (sep : Char) : List Char → List Char → List String
  | [], acc => [String.mk acc.reverse]
  | c :: cs, acc =>
    if c = sep then String.mk acc.reverse :: jsSplitAux sep cs []
    else jsSplitAux sep cs (c :: acc)

/-- JavaScript `s.split(sep)` for a one-character separator. -/
def jsSplit (s : String) (sep : Char) : List String :=
  jsSplitAux sep s.toList []

/-- The space character, the separator used by stripToken. -/
def SPACE : Char := Char.ofNat 32

/-- `stripToken`: `const token = req.headers['authorization'].split(' ')[1];
if (token) \x7b res.locals.token = token; return next() \x7d` inside a try whose
catch sends the 401.  An absent header makes the member access throw, which
the catch converts to the 401; a present header never throws, and when the
`[1]` element is missing (undefined) or empty the guard is falsy and the
function returns with neither next nor a response. -/
def stripToken (authorization : Option String) : MwOutcome :=
  match authorization with
  | none => MwOutcome.respond unauthorizedResponse
  | some h =>
    match (jsSplit h SPACE)[1]? with
    | some t => if t = "" then MwOutcome.hang else MwOutcome.next (some t)
    | none => MwOutcome.hang

/-- The possible outcomes of the `jwt.verify(token, APP_SECRET)` call as seen
by the verifyToken middleware: it returns a value (with a given truthiness)
or it throws. -/
inductive VerifyResult where
  | payload (truthy : Bool)
  | thrown
deriving DecidableEq, Repr

/-- `verifyToken`: in a try block, `let payload = jwt.verify(token,
APP_SECRET); if (payload) \x7b return next() \x7d` then the 401 send; the catch
also sends the 401. -/
def verifyToken (v : VerifyResult) : MwOutcome :=
  match v with
  | VerifyResult.payload true => MwOutcome.next none
  | VerifyResult.payload false => MwOutcome.respond unauthorizedResponse
  | VerifyResult.thrown => MwOutcome.respond unauthorizedResponse

/-- `Login`: look the user up by email; if a record exists and
`middleware.comparePassword(user.passwordDigest, req.body.password)` holds,
build the `\x7b id, email \x7d` payload, create a token, and send
`\x7b user: payload, token \x7d`; otherwise send the 401.  The database lookup and
the digest comparison over stored string digests are the two collaborators,
passed as functions. -/
def Login (findOne : String → Option UserRecord) (comparePw : String → String → Bool)
    (reqEmail reqPassword : String) : Response :=
  match findOne reqEmail with
  | some user =>
    if comparePw user.passwordDigest reqPassword then
      { status := 200,
        body := Body.loginSuccess { id := user.id, email := user.email }
          (createToken { id := user.id, email := user.email }) }
    else unauthorizedResponse
  | none => unauthorizedResponse

/-- Errors raised by the storage collaborator, e.g. a uniqueness violation
on the email column. -/
inductive StorageError where
  | uniqueViolation (field : String)
  | other (msg : String)
deriving DecidableEq, Repr

/-- `Register`: hash the password, `User.create(\x7b email, passwordDigest,
name \x7d)`, `res.send(user)`; the catch block is `throw error`, so a storage
failure is rethrown past the handler and no response is constructed. -/
def Register (hashPw : String → String)
    (create : String → String → String → Except StorageError UserRecord)
    (email password name : String) : Except StorageError Response :=
  let passwordDigest := hashPw password
  match create email passwordDigest name with
  | Except.ok user => Except.ok { status := 200, body := Body.userRecord user }
  | Except.error e => Except.error e

/-- The password digest carried by a response body, when the body is a full
user record. -/
def sentDigest : Body → Option String
  | Body.userRecord u => some u.passwordDigest
  | _ => none

/-- C1 counterexample: the header "abc123" (present, no separating space) is
one of the cases the claim says produces the uniform 401 rejection; on the
code it produces no response at all (and does not call next). -/
theorem stripToken_no_scheme_header_not_rejected :
    stripToken (some "abc123") ≠ MwOutcome.respond unauthorizedResponse ∧
    stripToken (some "abc123") = MwOutcome.hang := by
  decide

/-- C1 (amended): stripToken never propagates an exception (it is a total
function into MwOutcome); an absent authorization header yields the uniform
401 rejection; a well-formed header passes the token to next; but a header
that is present yet malformed (no second space-separated part, or an empty
token portion) yields neither the rejection nor next: the middleware returns
without responding. -/
theorem stripToken_outcomes :
    stripToken none = MwOutcome.respond unauthorizedResponse ∧
    (∀ s : String, stripToken (some s) ≠ MwOutcome.respond unauthorizedResponse) ∧
    (∀ s t : String, stripToken (some s) = MwOutcome.next (some t) ↔
      ((jsSplit s SPACE)[1]? = some t ∧ t ≠ "")) ∧
    (∀ s : String,
      ((jsSplit s SPACE)[1]? = none ∨ (jsSplit s SPACE)[1]? = some "") →
      stripToken (some s) = MwOutcome.hang) := by
  refine ⟨rfl, ?_, ?_, ?_⟩
  · intro s
    cases h : (jsSplit s SPACE)[1]? with
    | none => simp [stripToken, h]
    | some t =>
      by_cases ht : t = "" <;> simp [stripToken, h, ht]
  · intro s t
    cases h : (jsSplit s SPACE)[1]? with
    | none => simp [stripToken, h]
    | some r =>
      by_cases hr : r = "" <;> simp [stripToken, h, hr] <;> aesop
  · intro s h
    rcases h with h | h <;> simp [stripToken, h]

/-- C1 witness for the amended statement, at the concrete malformed headers
of the spec and the absent-header case. -/
theorem stripToken_outcomes_witness :
    stripToken (some "abc123") = MwOutcome.hang ∧
    stripToken (some "") = MwOutcome.hang := by
  exact ⟨stripToken_outcomes.2.2.2 "abc123" (Or.inl (by decide)),
    stripToken_outcomes.2.2.2 "" (Or.inl (by decide))⟩

/-- C2: the verification middleware calls next exactly when jwt.verify
returns a truthy payload, and on every other outcome (falsy payload or a
thrown error) it sends the identical 401 Unauthorized response. -/
theorem verifyToken_next_iff_truthy :
    ∀ v : VerifyResult,
      (verifyToken v = MwOutcome.next none ↔ v = VerifyResult.payload true) ∧
      (verifyToken v = MwOutcome.next none ∨
        verifyToken v = MwOutcome.respond unauthorizedResponse) := by
  intro v
  cases v with
  | payload t => cases t <;> simp [verifyToken]
  | thrown => simp [verifyToken]

/-- C3: a login whose email matches no record and a login whose email
matches a record but whose password fails the digest comparison produce the
same observable response, the uniform 401 Unauthorized. -/
theorem login_failure_uniform (findOne : String → Option UserRecord)
    (comparePw : String → String → Bool) (e1 p1 e2 p2 : String) (u : UserRecord)
    (h1 : findOne e1 = none) (h2 : findOne e2 = some u)
    (h3 : comparePw u.passwordDigest p2 = false) :
    Login findOne comparePw e1 p1 = unauthorizedResponse ∧
    Login findOne comparePw e2 p2 = unauthorizedResponse ∧
    Login findOne comparePw e1 p1 = Login findOne comparePw e2 p2 := by
  simp [Login, h1, h2, h3]

/-- C3 witness: a concrete one-user database, an unknown email on one side
and a wrong password on the other. -/
theorem login_failure_uniform_witness :
    Login (fun e => if e = "john@mail.com" then
        some { id := 1, email := "john@mail.com", passwordDigest := "d1", name := "John Doe" }
      else none) (fun _ _ => false) "nobody@mail.com" "1234" = unauthorizedResponse ∧
    Login (fun e => if e = "john@mail.com" then
        some { id := 1, email := "john@mail.com", passwordDigest := "d1", name := "John Doe" }
      else none) (fun _ _ => false) "john@mail.com" "wrong" = unauthorizedResponse ∧
    Login (fun e => if e = "john@mail.com" then
        some { id := 1, email := "john@mail.com", passwordDigest := "d1", name := "John Doe" }
      else none) (fun _ _ => false) "nobody@mail.com" "1234" =
    Login (fun e => if e = "john@mail.com" then
        some { id := 1, email := "john@mail.com", passwordDigest := "d1", name := "John Doe" }
      else none) (fun _ _ => false) "john@mail.com" "wrong" := by
  exact login_failure_uniform _ _ "nobody@mail.com" "1234" "john@mail.com" "wrong"
    { id := 1, email := "john@mail.com", passwordDigest := "d1", name := "John Doe" }
    (by rfl) (by rfl) (by rfl)

/-- C4: a successful login responds 200 with exactly the claims payload
(id and email of the matched record) and the token issued over it; the
claims carried by the token are exactly that id-and-email payload, so the
token embeds neither the digest nor the plaintext password. -/
theorem login_success_payload (findOne : String → Option UserRecord)
    (comparePw : String → String → Bool) (e p : String) (u : UserRecord)
    (h1 : findOne e = some u) (h2 : comparePw u.passwordDigest p = true) :
    Login findOne comparePw e p =
      { status := 200,
        body := Body.loginSuccess { id := u.id, email := u.email }
          (createToken { id := u.id, email := u.email }) } ∧
    (createToken { id := u.id, email := u.email }).claims =
      { id := u.id, email := u.email } := by
  refine ⟨?_, rfl⟩
  simp [Login, h1, h2]

/-- C4 witness: a concrete matching record and a comparison that accepts. -/
theorem login_success_payload_witness :
    Login (fun _ => some { id := 1, email := "a@b", passwordDigest := "d1", name := "jd" })
        (fun _ _ => true) "a@b" "1234" =
      { status := 200,
        body := Body.loginSuccess { id := 1, email := "a@b" }
          (createToken { id := 1, email := "a@b" }) } ∧
    (createToken { id := 1, email := "a@b" }).claims = { id := 1, email := "a@b" } := by
  exact login_success_payload _ _ "a@b" "1234"
    { id := 1, email := "a@b", passwordDigest := "d1", name := "jd" }
    (by rfl) (by rfl)

/-- C5: a successful registration responds with the full record returned by
the storage collaborator, and that body carries the passwordDigest field. -/
theorem register_responds_full_record (hashPw : String → String)
    (create : String → String → String → Except StorageError UserRecord)
    (email password nm : String) (u : UserRecord)
    (h : create email (hashPw password) nm = Except.ok u) :
    Register hashPw create email password nm =
      Except.ok { status := 200, body := Body.userRecord u } ∧
    sentDigest (Body.userRecord u) = some u.passwordDigest := by
  refine ⟨?_, rfl⟩
  simp [Register, h]

/-- C5 witness: a storage collaborator that creates the record from the
given fields; the response carries the digest of the hashed password. -/
theorem register_responds_full_record_witness :
    Register (fun p => p ++ "42")
        (fun e d n => Except.ok { id := 7, email := e, passwordDigest := d, name := n })
        "a@b" "1234" "jd" =
      Except.ok
        { status := 200,
          body := Body.userRecord { id := 7, email := "a@b", passwordDigest := "123442", name := "jd" } } ∧
    sentDigest (Body.userRecord { id := 7, email := "a@b", passwordDigest := "123442", name := "jd" }) =
      some "123442" := by
  exact register_responds_full_record _ _ "a@b" "1234" "jd"
    { id := 7, email := "a@b", passwordDigest := "123442", name := "jd" }
    (by rfl)

/-- C6: when the storage create operation fails, Register rethrows the very
same error past the handler and constructs no response of its own. -/
theorem register_rethrows_storage_error (hashPw : String → String)
    (create : String → String → String → Except StorageError UserRecord)
    (email password nm : String) (err : StorageError)
    (h : create email (hashPw password) nm = Except.error err) :
    Register hashPw create email password nm = Except.error err := by
  simp [Register, h]

/-- C6 witness: a uniqueness violation on email propagates unchanged. -/
theorem register_rethrows_storage_error_witness :
    Register (fun p => p) (fun _ _ _ => Except.error (StorageError.uniqueViolation "email"))
      "john@mail.com" "1234" "John Doe" =
      Except.error (StorageError.uniqueViolation "email") := by
  exact register_rethrows_storage_error _ _ "john@mail.com" "1234" "John Doe"
    (StorageError.uniqueViolation "email") (by rfl)

/-- C7: verifying a token issued by createToken with the same shared secret
returns exactly the claims payload that was issued, at any time. -/
theorem verify_createToken_roundtrip :
    ∀ (c : ClaimsPayload) (now : Nat),
      jwtVerify (createToken c) APP_SECRET now = some c := by
  intro c now
  simp [jwtVerify, createToken, jwtSign]

/-- C8: comparing a plaintext against the digest hashPassword produced from
it returns true, for every plaintext and every salt the library may pick. -/
theorem compare_hash_roundtrip :
    ∀ (p : String) (salt : Nat), comparePassword (hashPassword p salt) p = true := by
  intro p salt
  simp [comparePassword, hashPassword, bcryptCompare, bcryptHash]

/-- C9: createToken sets no expiration claim, and verification of an issued
token succeeds at every time, i.e. regardless of how long ago it was
issued. -/
theorem createToken_no_expiration :
    ∀ c : ClaimsPayload, (createToken c).exp = none ∧
      ∀ now : Nat, jwtVerify (createToken c) APP_SECRET now = some c := by
  intro c
  refine ⟨rfl, ?_⟩
  intro now
  simp [jwtVerify, createToken, jwtSign]

/-- C10: when the email lookup returns no record, Login reaches the 401
branch without invoking the password comparison: the response is the same
for every comparison function, so the comparison (and any field of the
absent record) is never consulted. -/
theorem login_no_user_short_circuit (findOne : String → Option UserRecord)
    (cmpA cmpB : String → String → Bool) (e p : String)
    (h : findOne e = none) :
    Login findOne cmpA e p = unauthorizedResponse ∧
    Login findOne cmpA e p = Login findOne cmpB e p := by
  constructor <;> simp [Login, h]

/-- C10 witness: an empty database; two arbitrary distinct comparison
functions give the same 401. -/
theorem login_no_user_short_circuit_witness :
    Login (fun _ => none) (fun _ _ => true) "john@mail.com" "1234" = unauthorizedResponse ∧
    Login (fun _ => none) (fun _ _ => true) "john@mail.com" "1234" =
      Login (fun _ => none) (fun _ _ => false) "john@mail.com" "1234" := by
  exact login_no_user_short_circuit _ _ _ "john@mail.com" "1234" (by rfl)
